import Mathlib

/-
Verification of the `bugzilla_query` crate (a read-only Bugzilla REST client).

The development shallowly embeds the two source files:
  * `src/access.rs`  — the session-object API (`BzInstance`, `Auth`,
    `Pagination`, `Request` and its `RestPath` instance);
  * `src/lib.rs`     — the bug data model (`Bug`, `User`, `Flag`,
    `Response`) with its serde `Deserialize` behaviour, and the legacy
    free-function API (`bug`, `bugs`) with its two `RestPath` instances.

Conventions of the embedding:
  * JSON values are modelled by the inductive `Json`; numbers are modelled
    as integers, which covers every numeric field of the Bugzilla schema.
  * serde's derived deserialization of a struct with a
    `#[serde(flatten)] extra: HashMap<String, Value>` field is modelled by
    a decoder that reads each named field from the object's key/value list
    (a required field fails the parse when missing or ill-typed, an
    `Option` field is `none` when missing or `null`) and collects every
    key that matches no named field into the `extra` list.
  * The HTTP layer is abstracted as a `Network` oracle mapping a request
    path and the client's headers to either a transport error or a JSON
    response body; `RestClient.get` composes the oracle with the
    deserializer, exactly as restson's blocking `get` composes the HTTP
    exchange with serde.
  * Machine integers (`i32`, `i64`, `u32`) are modelled as `Int`/`Nat`;
    the range checks serde performs when decoding them are kept explicit.
-/

namespace BugzillaQuery

/-- JSON values (serde_json's `Value`), with numbers restricted to the
integers, which covers every numeric field of the Bugzilla schema. -/
inductive Json : Type where
  | null : Json
  | bool : Bool → Json
  | int : Int → Json
  | str : String → Json
  | arr : List Json → Json
  | obj : List (String × Json) → Json

/-- `Auth` from `src/access.rs`: the authentication method used when
contacting Bugzilla. `Anonymous` is the `#[default]` variant. -/
inductive Auth : Type where
  | Anonymous : Auth
  | ApiKey : String → Auth
  deriving DecidableEq

/-- `Pagination` from `src/access.rs`. `Default` is the `#[default]`
variant; `Limit` carries a `u32`, modelled as `Nat`. -/
inductive Pagination : Type where
  | Default : Pagination
  | Limit : Nat → Pagination
  | Unlimited : Pagination
  deriving DecidableEq

/-- `Pagination::as_query` from `src/access.rs`: format the variant as a
URL query fragment. -/
def Pagination.as_query : Pagination → String
  | Pagination.Default => ""
  | Pagination.Limit n => "&limit=" ++ toString n
  | Pagination.Unlimited => "&limit=0"

/-- The restson error variants this crate can observe.
`InvalidValue` is the placeholder the crate returns when a single-bug
fetch finds no bug in the response. -/
inductive Error : Type where
  | HttpError : Nat → String → Error
  | DeserializeParseError : String → Error
  | UrlError : Error
  | InvalidValue : Error
  deriving DecidableEq

/-- `User` from `src/lib.rs`. -/
structure User : Type where
  email : String
  id : Int
  name : String
  real_name : String
  extra : List (String × Json)

/-- `Flag` from `src/lib.rs`. -/
structure Flag : Type where
  id : Int
  type_id : Int
  creation_date : String
  modification_date : String
  name : String
  status : String
  setter : String
  requestee : Option String
  extra : List (String × Json)

/-- `Bug` from `src/lib.rs`: the full bug record.  Fields typed `Option`
in the source are `Option` here; `Vec<T>` becomes `List T`; the
`#[serde(flatten)]` map becomes the `extra` association list. -/
structure Bug : Type where
  op_sys : String
  classification : String
  id : Int
  url : String
  creator : String
  creator_detail : User
  summary : String
  status : String
  estimated_time : Int
  target_milestone : String
  cc : List String
  cc_detail : List User
  is_open : Bool
  is_creator_accessible : Bool
  docs_contact : String
  docs_contact_detail : Option User
  assigned_to : String
  assigned_to_detail : User
  resolution : String
  severity : String
  product : String
  platform : String
  last_change_time : String
  remaining_time : Int
  priority : String
  whiteboard : String
  creation_time : String
  is_confirmed : Bool
  qa_contact : String
  qa_contact_detail : Option User
  dupe_of : Option Int
  target_release : List String
  actual_time : Int
  component : List String
  is_cc_accessible : Bool
  version : List String
  keywords : List String
  depends_on : List Int
  blocks : List Int
  see_also : List String
  groups : List String
  deadline : Option String
  update_token : Option String
  work_time : Option Int
  flags : Option (List Flag)
  tags : Option (List String)
  dependent_products : Option (List String)
  extra : List (String × Json)

/-- `Response` from `src/lib.rs`: the envelope of the multi-bug query
endpoint.  Note `limit` is a `String` in the source (a server quirk). -/
structure Response : Type where
  offset : Int
  limit : String
  total_matches : Int
  bugs : List Bug
  extra : List (String × Json)

/-- `Request` from `src/access.rs`: groups the parameters of one REST
request. -/
structure Request : Type where
  ids : List String
  pagination : Pagination
  fields : String

/-- `RestPath<Request<'_>> for Response::get_path` from `src/access.rs`:
`format!("rest/bug?id={}{}{}", ids.join(","), fields, pagination.as_query())`.
The source wraps the string in `Ok`; the wrapping is unconditional, so the
embedding returns the string directly. -/
def Request.get_path (request : Request) : String :=
  "rest/bug?id=" ++ String.intercalate "," request.ids
    ++ request.fields ++ request.pagination.as_query

/-- `RestPath<&str> for Response::get_path` from `src/lib.rs` (the legacy
single-bug path): `format!("rest/bug?id={}", param)`. -/
def get_path_single (param : String) : String :=
  "rest/bug?id=" ++ param

/-- `RestPath<&[&str]> for Response::get_path` from `src/lib.rs` (the
legacy multi-bug path), with its hard-coded field selection:
`format!("rest/bug?id={}&include_fields=_default,pool,flags", params.join(","))`. -/
def get_path_multi (params : List String) : String :=
  "rest/bug?id=" ++ String.intercalate "," params
    ++ "&include_fields=_default,pool,flags"

/-- The header map of a restson `RestClient`.  Only the headers are
relevant to this crate's behaviour. -/
structure RestClient : Type where
  headers : List (String × String)

/-- restson's `RestClient::set_header`: insert a header, replacing any
existing header of the same name. -/
def RestClient.set_header (c : RestClient) (name value : String) : RestClient :=
  { headers := c.headers.filter (fun p => p.1 != name) ++ [(name, value)] }

/-
Decoding: the model of serde's derived `Deserialize` for the structs of
`src/lib.rs`.
-/

/-- Decode a JSON string. -/
def decodeString : Json → Option String
  | Json.str s => some s
  | _ => none

/-- Decode a JSON boolean. -/
def decodeBool : Json → Option Bool
  | Json.bool b => some b
  | _ => none

/-- Decode an `i32`: an integer within the `i32` range. -/
def decodeI32 : Json → Option Int
  | Json.int n => if -(2 ^ 31) ≤ n ∧ n < 2 ^ 31 then some n else none
  | _ => none

/-- Decode an `i64`: an integer within the `i64` range. -/
def decodeI64 : Json → Option Int
  | Json.int n => if -(2 ^ 63) ≤ n ∧ n < 2 ^ 63 then some n else none
  | _ => none

/-- Decode a `Vec<T>` from a JSON array, elementwise. -/
def decodeList {α : Type} (dec : Json → Option α) : Json → Option (List α)
  | Json.arr xs => xs.mapM dec
  | _ => none

/-- Read a required struct field from a JSON object: the parse fails when
the key is missing or its value does not decode. -/
def getField {α : Type} (dec : Json → Option α) (key : String)
    (kvs : List (String × Json)) : Option α :=
  (List.lookup key kvs).bind dec

/-- Read an `Option` struct field from a JSON object: `none` when the key
is missing or its value is `null`; a present non-null value must decode. -/
def getOptField {α : Type} (dec : Json → Option α) (key : String)
    (kvs : List (String × Json)) : Option (Option α) :=
  match List.lookup key kvs with
  | none => some none
  | some Json.null => some none
  | some j => Option.map some (dec j)

/-- The keys that are captured by the `#[serde(flatten)]` map: every key
of the object that matches no named field. -/
def extraOf (names : List String) (kvs : List (String × Json)) :
    List (String × Json) :=
  kvs.filter (fun kv => !(names.contains kv.1))

/-- The named JSON keys of `User`. -/
def userFieldNames : List String :=
  ["email", "id", "name", "real_name"]

/-- serde deserialization of `User`. -/
def decodeUser : Json → Option User
  | Json.obj kvs => do
    let email ← getField decodeString "email" kvs
    let id ← getField decodeI32 "id" kvs
    let name ← getField decodeString "name" kvs
    let real_name ← getField decodeString "real_name" kvs
    pure { email := email, id := id, name := name, real_name := real_name,
           extra := extraOf userFieldNames kvs }
  | _ => none

/-- The named JSON keys of `Flag`. -/
def flagFieldNames : List String :=
  ["id", "type_id", "creation_date", "modification_date", "name",
   "status", "setter", "requestee"]

/-- serde deserialization of `Flag`. -/
def decodeFlag : Json → Option Flag
  | Json.obj kvs => do
    let id ← getField decodeI32 "id" kvs
    let type_id ← getField decodeI32 "type_id" kvs
    let creation_date ← getField decodeString "creation_date" kvs
    let modification_date ← getField decodeString "modification_date" kvs
    let name ← getField decodeString "name" kvs
    let status ← getField decodeString "status" kvs
    let setter ← getField decodeString "setter" kvs
    let requestee ← getOptField decodeString "requestee" kvs
    pure { id := id, type_id := type_id, creation_date := creation_date,
           modification_date := modification_date, name := name,
           status := status, setter := setter, requestee := requestee,
           extra := extraOf flagFieldNames kvs }
  | _ => none

/-- The named JSON keys of `Bug`, in source order. -/
def bugFieldNames : List String :=
  ["op_sys", "classification", "id", "url", "creator", "creator_detail",
   "summary", "status", "estimated_time", "target_milestone", "cc",
   "cc_detail", "is_open", "is_creator_accessible", "docs_contact",
   "docs_contact_detail", "assigned_to", "assigned_to_detail",
   "resolution", "severity", "product", "platform", "last_change_time",
   "remaining_time", "priority", "whiteboard", "creation_time",
   "is_confirmed", "qa_contact", "qa_contact_detail", "dupe_of",
   "target_release", "actual_time", "component", "is_cc_accessible",
   "version", "keywords", "depends_on", "blocks", "see_also", "groups",
   "deadline", "update_token", "work_time", "flags", "tags",
   "dependent_products"]

/-
The named-field part of serde deserialization of `Bug`.  The 47 named
fields are read in source order; the reads are grouped into five bundles
purely to keep the definitions small (the composite `decodeBugCore`
below performs exactly the reads the derived `Deserialize` performs).
-/

/-- Fields 1–10 of `Bug` (`op_sys` … `target_milestone`). -/
structure BugPart1 : Type where
  op_sys : String
  classification : String
  id : Int
  url : String
  creator : String
  creator_detail : User
  summary : String
  status : String
  estimated_time : Int
  target_milestone : String

/-- Fields 11–20 of `Bug` (`cc` … `severity`). -/
structure BugPart2 : Type where
  cc : List String
  cc_detail : List User
  is_open : Bool
  is_creator_accessible : Bool
  docs_contact : String
  docs_contact_detail : Option User
  assigned_to : String
  assigned_to_detail : User
  resolution : String
  severity : String

/-- Fields 21–30 of `Bug` (`product` … `qa_contact_detail`). -/
structure BugPart3 : Type where
  product : String
  platform : String
  last_change_time : String
  remaining_time : Int
  priority : String
  whiteboard : String
  creation_time : String
  is_confirmed : Bool
  qa_contact : String
  qa_contact_detail : Option User

/-- Fields 31–40 of `Bug` (`dupe_of` … `see_also`). -/
structure BugPart4 : Type where
  dupe_of : Option Int
  target_release : List String
  actual_time : Int
  component : List String
  is_cc_accessible : Bool
  version : List String
  keywords : List String
  depends_on : List Int
  blocks : List Int
  see_also : List String

/-- Fields 41–47 of `Bug` (`groups` … `dependent_products`). -/
structure BugPart5 : Type where
  groups : List String
  deadline : Option String
  update_token : Option String
  work_time : Option Int
  flags : Option (List Flag)
  tags : Option (List String)
  dependent_products : Option (List String)

/-- Read fields 1–10 of `Bug` from the object. -/
def decodeBugPart1 (kvs : List (String × Json)) : Option BugPart1 := do
  let op_sys ← getField decodeString "op_sys" kvs
  let classification ← getField decodeString "classification" kvs
  let id ← getField decodeI32 "id" kvs
  let url ← getField decodeString "url" kvs
  let creator ← getField decodeString "creator" kvs
  let creator_detail ← getField decodeUser "creator_detail" kvs
  let summary ← getField decodeString "summary" kvs
  let status ← getField decodeString "status" kvs
  let estimated_time ← getField decodeI64 "estimated_time" kvs
  let target_milestone ← getField decodeString "target_milestone" kvs
  pure { op_sys := op_sys, classification := classification, id := id,
         url := url, creator := creator, creator_detail := creator_detail,
         summary := summary, status := status,
         estimated_time := estimated_time,
         target_milestone := target_milestone }

/-- Read fields 11–20 of `Bug` from the object. -/
def decodeBugPart2 (kvs : List (String × Json)) : Option BugPart2 := do
  let cc ← getField (decodeList decodeString) "cc" kvs
  let cc_detail ← getField (decodeList decodeUser) "cc_detail" kvs
  let is_open ← getField decodeBool "is_open" kvs
  let is_creator_accessible ← getField decodeBool "is_creator_accessible" kvs
  let docs_contact ← getField decodeString "docs_contact" kvs
  let docs_contact_detail ← getOptField decodeUser "docs_contact_detail" kvs
  let assigned_to ← getField decodeString "assigned_to" kvs
  let assigned_to_detail ← getField decodeUser "assigned_to_detail" kvs
  let resolution ← getField decodeString "resolution" kvs
  let severity ← getField decodeString "severity" kvs
  pure { cc := cc, cc_detail := cc_detail, is_open := is_open,
         is_creator_accessible := is_creator_accessible,
         docs_contact := docs_contact,
         docs_contact_detail := docs_contact_detail,
         assigned_to := assigned_to,
         assigned_to_detail := assigned_to_detail,
         resolution := resolution, severity := severity }

/-- Read fields 21–30 of `Bug` from the object. -/
def decodeBugPart3 (kvs : List (String × Json)) : Option BugPart3 := do
  let product ← getField decodeString "product" kvs
  let platform ← getField decodeString "platform" kvs
  let last_change_time ← getField decodeString "last_change_time" kvs
  let remaining_time ← getField decodeI64 "remaining_time" kvs
  let priority ← getField decodeString "priority" kvs
  let whiteboard ← getField decodeString "whiteboard" kvs
  let creation_time ← getField decodeString "creation_time" kvs
  let is_confirmed ← getField decodeBool "is_confirmed" kvs
  let qa_contact ← getField decodeString "qa_contact" kvs
  let qa_contact_detail ← getOptField decodeUser "qa_contact_detail" kvs
  pure { product := product, platform := platform,
         last_change_time := last_change_time,
         remaining_time := remaining_time, priority := priority,
         whiteboard := whiteboard, creation_time := creation_time,
         is_confirmed := is_confirmed, qa_contact := qa_contact,
         qa_contact_detail := qa_contact_detail }

/-- Read fields 31–40 of `Bug` from the object. -/
def decodeBugPart4 (kvs : List (String × Json)) : Option BugPart4 := do
  let dupe_of ← getOptField decodeI32 "dupe_of" kvs
  let target_release ← getField (decodeList decodeString) "target_release" kvs
  let actual_time ← getField decodeI64 "actual_time" kvs
  let component ← getField (decodeList decodeString) "component" kvs
  let is_cc_accessible ← getField decodeBool "is_cc_accessible" kvs
  let version ← getField (decodeList decodeString) "version" kvs
  let keywords ← getField (decodeList decodeString) "keywords" kvs
  let depends_on ← getField (decodeList decodeI32) "depends_on" kvs
  let blocks ← getField (decodeList decodeI32) "blocks" kvs
  let see_also ← getField (decodeList decodeString) "see_also" kvs
  pure { dupe_of := dupe_of, target_release := target_release,
         actual_time := actual_time, component := component,
         is_cc_accessible := is_cc_accessible, version := version,
         keywords := keywords, depends_on := depends_on, blocks := blocks,
         see_also := see_also }

/-- Read fields 41–47 of `Bug` from the object. -/
def decodeBugPart5 (kvs : List (String × Json)) : Option BugPart5 := do
  let groups ← getField (decodeList decodeString) "groups" kvs
  let deadline ← getOptField decodeString "deadline" kvs
  let update_token ← getOptField decodeString "update_token" kvs
  let work_time ← getOptField decodeI64 "work_time" kvs
  let flags ← getOptField (decodeList decodeFlag) "flags" kvs
  let tags ← getOptField (decodeList decodeString) "tags" kvs
  let dependent_products ← getOptField (decodeList decodeString) "dependent_products" kvs
  pure { groups := groups, deadline := deadline,
         update_token := update_token, work_time := work_time,
         flags := flags, tags := tags,
         dependent_products := dependent_products }

/-- Assemble a `Bug` from the five bundles, with an empty `extra` map. -/
def assembleBug (p1 : BugPart1) (p2 : BugPart2) (p3 : BugPart3)
    (p4 : BugPart4) (p5 : BugPart5) : Bug :=
  { op_sys := p1.op_sys, classification := p1.classification, id := p1.id,
    url := p1.url, creator := p1.creator,
    creator_detail := p1.creator_detail, summary := p1.summary,
    status := p1.status, estimated_time := p1.estimated_time,
    target_milestone := p1.target_milestone, cc := p2.cc,
    cc_detail := p2.cc_detail, is_open := p2.is_open,
    is_creator_accessible := p2.is_creator_accessible,
    docs_contact := p2.docs_contact,
    docs_contact_detail := p2.docs_contact_detail,
    assigned_to := p2.assigned_to,
    assigned_to_detail := p2.assigned_to_detail,
    resolution := p2.resolution, severity := p2.severity,
    product := p3.product, platform := p3.platform,
    last_change_time := p3.last_change_time,
    remaining_time := p3.remaining_time, priority := p3.priority,
    whiteboard := p3.whiteboard, creation_time := p3.creation_time,
    is_confirmed := p3.is_confirmed, qa_contact := p3.qa_contact,
    qa_contact_detail := p3.qa_contact_detail, dupe_of := p4.dupe_of,
    target_release := p4.target_release, actual_time := p4.actual_time,
    component := p4.component, is_cc_accessible := p4.is_cc_accessible,
    version := p4.version, keywords := p4.keywords,
    depends_on := p4.depends_on, blocks := p4.blocks,
    see_also := p4.see_also, groups := p5.groups,
    deadline := p5.deadline, update_token := p5.update_token,
    work_time := p5.work_time, flags := p5.flags, tags := p5.tags,
    dependent_products := p5.dependent_products, extra := [] }

/-- The named-field part of serde deserialization of `Bug`: read every
named field of the struct, leaving `extra` empty. -/
def decodeBugCore (kvs : List (String × Json)) : Option Bug := do
  let p1 ← decodeBugPart1 kvs
  let p2 ← decodeBugPart2 kvs
  let p3 ← decodeBugPart3 kvs
  let p4 ← decodeBugPart4 kvs
  let p5 ← decodeBugPart5 kvs
  pure (assembleBug p1 p2 p3 p4 p5)

/-- serde deserialization of `Bug`: the named fields plus the
`#[serde(flatten)]` capture of all unnamed keys. -/
def decodeBug : Json → Option Bug
  | Json.obj kvs =>
    (decodeBugCore kvs).map
      (fun b => { b with extra := extraOf bugFieldNames kvs })
  | _ => none

/-- The named JSON keys of `Response`. -/
def responseFieldNames : List String :=
  ["offset", "limit", "total_matches", "bugs"]

/-- serde deserialization of `Response`. -/
def decodeResponse : Json → Option Response
  | Json.obj kvs => do
    let offset ← getField decodeI32 "offset" kvs
    let limit ← getField decodeString "limit" kvs
    let total_matches ← getField decodeI32 "total_matches" kvs
    let bugs ← getField (decodeList decodeBug) "bugs" kvs
    pure { offset := offset, limit := limit,
           total_matches := total_matches, bugs := bugs,
           extra := extraOf responseFieldNames kvs }
  | _ => none

/-
The HTTP layer and the two APIs.
-/

/-- The HTTP layer, abstracted: a GET is a function of the request path
and of the client's headers, returning either a transport error or the
JSON body of the response. -/
def Network : Type :=
  String → List (String × String) → Except Error Json

/-- restson's blocking `get`: perform the HTTP exchange, then deserialize
the body into a `Response`; a body that does not match the schema is a
deserialization error. -/
def RestClient.get (c : RestClient) (net : Network) (path : String) :
    Except Error Response :=
  match net path c.headers with
  | Except.error e => Except.error e
  | Except.ok body =>
    match decodeResponse body with
    | some r => Except.ok r
    | none => Except.error (Error.DeserializeParseError "deserialization failed")

/-- `BzInstance` from `src/access.rs`: configuration and credentials to
access a Bugzilla instance. -/
structure BzInstance : Type where
  host : String
  auth : Auth
  pagination : Pagination
  included_fields : List String
  client : RestClient

/-- `BzInstance::at` from `src/access.rs` (`at` is a Lean keyword, hence
the name `at_host`): a new session with default values for all options.  The only failure in the source is the
construction of the HTTP client for a malformed host URL, which the
embedding does not model, so the constructor is total here. -/
def BzInstance.at_host (host : String) : BzInstance :=
  { host := host
    auth := Auth.Anonymous
    pagination := Pagination.Default
    included_fields := ["_default"]
    client := { headers := [] } }

/-- `BzInstance::authenticate` from `src/access.rs`: record the
authentication method; when it is an API key, set the `Authorization`
header on the client; anonymous authentication does not modify the
request in any way.  (The source returns `Result` because restson's
`set_header` can reject an ill-formed header value; the embedding's
`set_header` is total.) -/
def BzInstance.authenticate (s : BzInstance) (auth : Auth) : BzInstance :=
  match auth with
  | Auth.ApiKey key =>
    { s with auth := auth,
             client := s.client.set_header "Authorization" ("Bearer " ++ key) }
  | Auth.Anonymous => { s with auth := auth }

/-- `BzInstance::paginate` from `src/access.rs`. -/
def BzInstance.paginate (s : BzInstance) (pagination : Pagination) : BzInstance :=
  { s with pagination := pagination }

/-- `BzInstance::include_fields` from `src/access.rs`: overwrite the
requested field list. -/
def BzInstance.include_fields (s : BzInstance) (fields : List String) : BzInstance :=
  { s with included_fields := fields }

/-- `BzInstance::fields_as_query` from `src/access.rs`. -/
def BzInstance.fields_as_query (s : BzInstance) : String :=
  if s.included_fields.isEmpty then ""
  else "&include_fields=" ++ String.intercalate "," s.included_fields

/-- The request path `BzInstance::bugs` submits for a list of IDs: the
`Request` it builds, routed through `Request.get_path`. -/
def BzInstance.request_path (s : BzInstance) (ids : List String) : String :=
  Request.get_path
    { ids := ids, pagination := s.pagination, fields := s.fields_as_query }

/-- `BzInstance::bugs` from `src/access.rs`: build the request, perform
the GET, and return the `bugs` list of the response. -/
def BzInstance.bugs (s : BzInstance) (net : Network) (ids : List String) :
    Except Error (List Bug) :=
  match s.client.get net (s.request_path ids) with
  | Except.error e => Except.error e
  | Except.ok response => Except.ok response.bugs

/-- `BzInstance::bug` from `src/access.rs`: reuse `bugs`, then extract
the first element, with `Error::InvalidValue` when the list is empty. -/
def BzInstance.bug (s : BzInstance) (net : Network) (id : String) :
    Except Error Bug :=
  match s.bugs net [id] with
  | Except.error e => Except.error e
  | Except.ok bugs =>
    match bugs with
    | [] => Except.error Error.InvalidValue
    | b :: _ => Except.ok b

/-- The legacy free function `bug` from `src/lib.rs`: build a fresh
client, set the `Authorization` header, GET the single-bug path, and
return the first bug, with `Error::InvalidValue` when there is none.
The `host` argument only parameterizes the HTTP client in the source. -/
def bug (host : String) (net : Network) (bugId : String) (api_key : String) :
    Except Error Bug :=
  let client := RestClient.set_header { headers := [] }
    "Authorization" ("Bearer " ++ api_key)
  match client.get net (get_path_single bugId) with
  | Except.error e => Except.error e
  | Except.ok response =>
    match response.bugs with
    | [] => Except.error Error.InvalidValue
    | b :: _ => Except.ok b

/-- The legacy free function `bugs` from `src/lib.rs`: build a fresh
client, set the `Authorization` header, GET the legacy multi-bug path,
and return the `bugs` list of the response. -/
def bugs (host : String) (net : Network) (ids : List String) (api_key : String) :
    Except Error (List Bug) :=
  let client := RestClient.set_header { headers := [] }
    "Authorization" ("Bearer " ++ api_key)
  match client.get net (get_path_multi ids) with
  | Except.error e => Except.error e
  | Except.ok response => Except.ok response.bugs

/-- The invariant §3 of the specification states for parsed bugs: unique
positive `id`s within a response, and `cc` parallel to `cc_detail`. -/
def responseInvariant (r : Response) : Prop :=
  (r.bugs.map Bug.id).Nodup
    ∧ ∀ b ∈ r.bugs, 0 < b.id ∧ b.cc.length = b.cc_detail.length

/-- A small JSON object for a `User`, used by the concrete payloads. -/
def sampleUserKVs (name : String) : List (String × Json) :=
  [("email", Json.str (name ++ "@example.com")), ("id", Json.int 7),
   ("name", Json.str name), ("real_name", Json.str name)]

/-- The `User` the object above parses to. -/
def sampleUser (name : String) : User :=
  { email := name ++ "@example.com", id := 7, name := name,
    real_name := name, extra := [] }

/-- A JSON bug object carrying every required field of `Bug` and no
optional field, with the given `id`, `cc` list, and `cc_detail` user
names. -/
def mkBugKVs (id : Int) (cc : List String) (ccd : List String) :
    List (String × Json) :=
  [("op_sys", Json.str "Linux"),
   ("classification", Json.str "other"),
   ("id", Json.int id),
   ("url", Json.str ""),
   ("creator", Json.str "alice"),
   ("creator_detail", Json.obj (sampleUserKVs "alice")),
   ("summary", Json.str "a bug"),
   ("status", Json.str "NEW"),
   ("estimated_time", Json.int 0),
   ("target_milestone", Json.str "---"),
   ("cc", Json.arr (cc.map Json.str)),
   ("cc_detail", Json.arr (ccd.map (fun n => Json.obj (sampleUserKVs n)))),
   ("is_open", Json.bool true),
   ("is_creator_accessible", Json.bool true),
   ("docs_contact", Json.str ""),
   ("assigned_to", Json.str "bob"),
   ("assigned_to_detail", Json.obj (sampleUserKVs "bob")),
   ("resolution", Json.str ""),
   ("severity", Json.str "low"),
   ("product", Json.str "prod"),
   ("platform", Json.str "x86"),
   ("last_change_time", Json.str "2024-01-01T00:00:00Z"),
   ("remaining_time", Json.int 0),
   ("priority", Json.str "P1"),
   ("whiteboard", Json.str ""),
   ("creation_time", Json.str "2024-01-01T00:00:00Z"),
   ("is_confirmed", Json.bool true),
   ("qa_contact", Json.str ""),
   ("target_release", Json.arr []),
   ("actual_time", Json.int 0),
   ("component", Json.arr [Json.str "core"]),
   ("is_cc_accessible", Json.bool true),
   ("version", Json.arr [Json.str "1.0"]),
   ("keywords", Json.arr []),
   ("depends_on", Json.arr []),
   ("blocks", Json.arr []),
   ("see_also", Json.arr []),
   ("groups", Json.arr [])]

/-- The `Bug` the object above parses to. -/
def mkBug (id : Int) (cc : List String) (ccd : List String) : Bug :=
  { op_sys := "Linux", classification := "other", id := id, url := "",
    creator := "alice", creator_detail := sampleUser "alice",
    summary := "a bug", status := "NEW", estimated_time := 0,
    target_milestone := "---", cc := cc,
    cc_detail := ccd.map sampleUser, is_open := true,
    is_creator_accessible := true, docs_contact := "",
    docs_contact_detail := none, assigned_to := "bob",
    assigned_to_detail := sampleUser "bob", resolution := "",
    severity := "low", product := "prod", platform := "x86",
    last_change_time := "2024-01-01T00:00:00Z", remaining_time := 0,
    priority := "P1", whiteboard := "",
    creation_time := "2024-01-01T00:00:00Z", is_confirmed := true,
    qa_contact := "", qa_contact_detail := none, dupe_of := none,
    target_release := [], actual_time := 0, component := ["core"],
    is_cc_accessible := true, version := ["1.0"], keywords := [],
    depends_on := [], blocks := [], see_also := [], groups := [],
    deadline := none, update_token := none, work_time := none,
    flags := none, tags := none, dependent_products := none, extra := [] }

/-- A response body with exactly one bug, id 5. -/
def oneBugBody : Json :=
  Json.obj [("offset", Json.int 0), ("limit", Json.str "20"),
    ("total_matches", Json.int 1),
    ("bugs", Json.arr [Json.obj (mkBugKVs 5 [] [])])]

/-- The `Response` that `oneBugBody` parses to. -/
def oneBugResponse : Response :=
  { offset := 0, limit := "20", total_matches := 1,
    bugs := [mkBug 5 [] []], extra := [] }

/-- A response body with an empty bug list. -/
def emptyBody : Json :=
  Json.obj [("offset", Json.int 0), ("limit", Json.str "20"),
    ("total_matches", Json.int 0), ("bugs", Json.arr [])]

/-- The `Response` that `emptyBody` parses to. -/
def emptyResponse : Response :=
  { offset := 0, limit := "20", total_matches := 0, bugs := [],
    extra := [] }

/-- A response body whose two bugs violate every part of the §3 bug
invariant: both ids are `-1` (non-positive and duplicated) and the first
bug has one `cc` entry but no `cc_detail` entry. -/
def badResponseBody : Json :=
  Json.obj [("offset", Json.int 0), ("limit", Json.str "20"),
    ("total_matches", Json.int 2),
    ("bugs", Json.arr [Json.obj (mkBugKVs (-1) ["x@example.com"] []),
                       Json.obj (mkBugKVs (-1) [] [])])]

/-- The `Response` that `badResponseBody` parses to. -/
def badResponse : Response :=
  { offset := 0, limit := "20", total_matches := 2,
    bugs := [mkBug (-1) ["x@example.com"] [], mkBug (-1) [] []],
    extra := [] }

/-
Association-list lemmas used by the deserialization proofs.
-/

theorem lookup_cons_pos {β : Type} {k k1 : String} (v : β)
    (t : List (String × β)) (h : (k == k1) = true) :
    List.lookup k ((k1, v) :: t) = some v := by
  simp [List.lookup, h]

theorem lookup_cons_neg {β : Type} {k k1 : String} (v : β)
    (t : List (String × β)) (h : (k == k1) = false) :
    List.lookup k ((k1, v) :: t) = List.lookup k t := by
  simp [List.lookup, h]

theorem lookup_snoc_ne {β : Type} (key k : String) (v : β)
    (l : List (String × β)) (h : key ≠ k) :
    List.lookup key (l ++ [(k, v)]) = List.lookup key l := by
  induction l with
  | nil =>
    simpa using lookup_cons_neg v [] (beq_eq_false_iff_ne.mpr h)
  | cons p t ih =>
    rcases p with ⟨k1, v1⟩
    cases hkk : (key == k1) with
    | true =>
      rw [List.cons_append, lookup_cons_pos v1 (t ++ [(k, v)]) hkk,
        lookup_cons_pos v1 t hkk]
    | false =>
      rw [List.cons_append, lookup_cons_neg v1 (t ++ [(k, v)]) hkk,
        lookup_cons_neg v1 t hkk, ih]

theorem lookup_append_left_none {β : Type} (k : String)
    (l1 l2 : List (String × β)) (h : List.lookup k l1 = none) :
    List.lookup k (l1 ++ l2) = List.lookup k l2 := by
  induction l1 with
  | nil => simp
  | cons p t ih =>
    rcases p with ⟨k1, v1⟩
    cases hkk : (k == k1) with
    | true =>
      rw [lookup_cons_pos v1 t hkk] at h
      exact absurd h (by simp)
    | false =>
      rw [lookup_cons_neg v1 t hkk] at h
      rw [List.cons_append, lookup_cons_neg v1 (t ++ l2) hkk, ih h]

theorem lookup_singleton_self {β : Type} (k : String) (v : β) :
    List.lookup k [(k, v)] = some v :=
  lookup_cons_pos v [] (beq_self_eq_true k)

theorem lookup_filter_none {β : Type} (k : String) (p : String × β → Bool)
    (l : List (String × β)) (h : List.lookup k l = none) :
    List.lookup k (l.filter p) = none := by
  induction l with
  | nil => rfl
  | cons q t ih =>
    rcases q with ⟨k1, v1⟩
    cases hkk : (k == k1) with
    | true =>
      rw [lookup_cons_pos v1 t hkk] at h
      exact absurd h (by simp)
    | false =>
      rw [lookup_cons_neg v1 t hkk] at h
      rw [List.filter_cons]
      by_cases hp : p (k1, v1)
      · rw [if_pos hp, lookup_cons_neg v1 (t.filter p) hkk]
        exact ih h
      · rw [if_neg hp]
        exact ih h

theorem lookup_filter_self_none {β : Type} (k : String)
    (l : List (String × β)) :
    List.lookup k (l.filter (fun p => p.1 != k)) = none := by
  induction l with
  | nil => rfl
  | cons q t ih =>
    rcases q with ⟨k1, v1⟩
    rw [List.filter_cons]
    by_cases hkk : k1 = k
    · subst hkk
      simpa using ih
    · have h1 : ((k1, v1).1 != k) = true := bne_iff_ne.mpr hkk
      rw [if_pos h1,
        lookup_cons_neg v1 (t.filter (fun p => p.1 != k))
          (beq_eq_false_iff_ne.mpr (Ne.symm hkk))]
      exact ih

theorem contains_eq_false_of_not_mem {k : String} {names : List String}
    (h : ¬ k ∈ names) : names.contains k = false := by
  simpa using h

theorem extraOf_snoc (names : List String) (k : String) (v : Json)
    (l : List (String × Json)) (h : ¬ k ∈ names) :
    extraOf names (l ++ [(k, v)]) = extraOf names l ++ [(k, v)] := by
  simp [extraOf, List.filter_append, List.filter_cons,
    contains_eq_false_of_not_mem h, h]

theorem lookup_extraOf_none (names : List String) (k : String)
    (l : List (String × Json)) (h : List.lookup k l = none) :
    List.lookup k (extraOf names l) = none :=
  lookup_filter_none k _ l h

theorem getField_congr {α : Type} (dec : Json → Option α) (key : String)
    {kvs1 kvs2 : List (String × Json)}
    (h : List.lookup key kvs1 = List.lookup key kvs2) :
    getField dec key kvs1 = getField dec key kvs2 := by
  simp [getField, h]

theorem getOptField_congr {α : Type} (dec : Json → Option α) (key : String)
    {kvs1 kvs2 : List (String × Json)}
    (h : List.lookup key kvs1 = List.lookup key kvs2) :
    getOptField dec key kvs1 = getOptField dec key kvs2 := by
  simp only [getOptField, h]

theorem getOptField_of_lookup_none {α : Type} (dec : Json → Option α)
    (key : String) {kvs : List (String × Json)}
    (h : List.lookup key kvs = none) :
    getOptField dec key kvs = some none := by
  simp only [getOptField, h]

theorem decodeBugPart5_some {kvs : List (String × Json)} {p : BugPart5}
    (h : decodeBugPart5 kvs = some p) :
    getField (decodeList decodeString) "groups" kvs = some p.groups
    ∧ getOptField decodeString "deadline" kvs = some p.deadline
    ∧ getOptField decodeString "update_token" kvs = some p.update_token
    ∧ getOptField decodeI64 "work_time" kvs = some p.work_time
    ∧ getOptField (decodeList decodeFlag) "flags" kvs = some p.flags
    ∧ getOptField (decodeList decodeString) "tags" kvs = some p.tags
    ∧ getOptField (decodeList decodeString) "dependent_products" kvs = some p.dependent_products := by
  simp only [decodeBugPart5, Option.bind_eq_bind, Option.bind_eq_some,
    Option.pure_def, Option.some.injEq] at h
  obtain ⟨x1, e1, x2, e2, x3, e3, x4, e4, x5, e5, x6, e6, x7, e7, heq⟩ := h
  subst heq
  exact ⟨e1, e2, e3, e4, e5, e6, e7⟩

/-- Invert a successful read of fields bundle 1: each field of the result
is the decoded value of its JSON key. -/
theorem decodeBugPart1_some {kvs : List (String × Json)} {p : BugPart1}
    (h : decodeBugPart1 kvs = some p) :
    getField decodeString "op_sys" kvs = some p.op_sys
    ∧ getField decodeString "classification" kvs = some p.classification
    ∧ getField decodeI32 "id" kvs = some p.id
    ∧ getField decodeString "url" kvs = some p.url
    ∧ getField decodeString "creator" kvs = some p.creator
    ∧ getField decodeUser "creator_detail" kvs = some p.creator_detail
    ∧ getField decodeString "summary" kvs = some p.summary
    ∧ getField decodeString "status" kvs = some p.status
    ∧ getField decodeI64 "estimated_time" kvs = some p.estimated_time
    ∧ getField decodeString "target_milestone" kvs = some p.target_milestone := by
  simp only [decodeBugPart1, Option.bind_eq_bind, Option.bind_eq_some,
    Option.pure_def, Option.some.injEq] at h
  obtain ⟨x1, e1, x2, e2, x3, e3, x4, e4, x5, e5, x6, e6, x7, e7, x8, e8, x9, e9, x10, e10, heq⟩ := h
  subst heq
  exact ⟨e1, e2, e3, e4, e5, e6, e7, e8, e9, e10⟩

/-- Invert a successful read of fields bundle 2: each field of the result
is the decoded value of its JSON key. -/
theorem decodeBugPart2_some {kvs : List (String × Json)} {p : BugPart2}
    (h : decodeBugPart2 kvs = some p) :
    getField (decodeList decodeString) "cc" kvs = some p.cc
    ∧ getField (decodeList decodeUser) "cc_detail" kvs = some p.cc_detail
    ∧ getField decodeBool "is_open" kvs = some p.is_open
    ∧ getField decodeBool "is_creator_accessible" kvs = some p.is_creator_accessible
    ∧ getField decodeString "docs_contact" kvs = some p.docs_contact
    ∧ getOptField decodeUser "docs_contact_detail" kvs = some p.docs_contact_detail
    ∧ getField decodeString "assigned_to" kvs = some p.assigned_to
    ∧ getField decodeUser "assigned_to_detail" kvs = some p.assigned_to_detail
    ∧ getField decodeString "resolution" kvs = some p.resolution
    ∧ getField decodeString "severity" kvs = some p.severity := by
  simp only [decodeBugPart2, Option.bind_eq_bind, Option.bind_eq_some,
    Option.pure_def, Option.some.injEq] at h
  obtain ⟨x1, e1, x2, e2, x3, e3, x4, e4, x5, e5, x6, e6, x7, e7, x8, e8, x9, e9, x10, e10, heq⟩ := h
  subst heq
  exact ⟨e1, e2, e3, e4, e5, e6, e7, e8, e9, e10⟩

/-- Invert a successful read of fields bundle 3: each field of the result
is the decoded value of its JSON key. -/
theorem decodeBugPart3_some {kvs : List (String × Json)} {p : BugPart3}
    (h : decodeBugPart3 kvs = some p) :
    getField decodeString "product" kvs = some p.product
    ∧ getField decodeString "platform" kvs = some p.platform
    ∧ getField decodeString "last_change_time" kvs = some p.last_change_time
    ∧ getField decodeI64 "remaining_time" kvs = some p.remaining_time
    ∧ getField decodeString "priority" kvs = some p.priority
    ∧ getField decodeString "whiteboard" kvs = some p.whiteboard
    ∧ getField decodeString "creation_time" kvs = some p.creation_time
    ∧ getField decodeBool "is_confirmed" kvs = some p.is_confirmed
    ∧ getField decodeString "qa_contact" kvs = some p.qa_contact
    ∧ getOptField decodeUser "qa_contact_detail" kvs = some p.qa_contact_detail := by
  simp only [decodeBugPart3, Option.bind_eq_bind, Option.bind_eq_some,
    Option.pure_def, Option.some.injEq] at h
  obtain ⟨x1, e1, x2, e2, x3, e3, x4, e4, x5, e5, x6, e6, x7, e7, x8, e8, x9, e9, x10, e10, heq⟩ := h
  subst heq
  exact ⟨e1, e2, e3, e4, e5, e6, e7, e8, e9, e10⟩

/-- Invert a successful read of fields bundle 4: each field of the result
is the decoded value of its JSON key. -/
theorem decodeBugPart4_some {kvs : List (String × Json)} {p : BugPart4}
    (h : decodeBugPart4 kvs = some p) :
    getOptField decodeI32 "dupe_of" kvs = some p.dupe_of
    ∧ getField (decodeList decodeString) "target_release" kvs = some p.target_release
    ∧ getField decodeI64 "actual_time" kvs = some p.actual_time
    ∧ getField (decodeList decodeString) "component" kvs = some p.component
    ∧ getField decodeBool "is_cc_accessible" kvs = some p.is_cc_accessible
    ∧ getField (decodeList decodeString) "version" kvs = some p.version
    ∧ getField (decodeList decodeString) "keywords" kvs = some p.keywords
    ∧ getField (decodeList decodeI32) "depends_on" kvs = some p.depends_on
    ∧ getField (decodeList decodeI32) "blocks" kvs = some p.blocks
    ∧ getField (decodeList decodeString) "see_also" kvs = some p.see_also := by
  simp only [decodeBugPart4, Option.bind_eq_bind, Option.bind_eq_some,
    Option.pure_def, Option.some.injEq] at h
  obtain ⟨x1, e1, x2, e2, x3, e3, x4, e4, x5, e5, x6, e6, x7, e7, x8, e8, x9, e9, x10, e10, heq⟩ := h
  subst heq
  exact ⟨e1, e2, e3, e4, e5, e6, e7, e8, e9, e10⟩

/-- Reading fields bundle 1 only consults the named keys of `Bug`. -/
theorem decodeBugPart1_congr {kvs1 kvs2 : List (String × Json)}
    (h : ∀ key, key ∈ bugFieldNames →
      List.lookup key kvs1 = List.lookup key kvs2) :
    decodeBugPart1 kvs1 = decodeBugPart1 kvs2 := by
  simp only [decodeBugPart1,
    getField_congr decodeString "op_sys" (h "op_sys" (by decide)),
    getField_congr decodeString "classification" (h "classification" (by decide)),
    getField_congr decodeI32 "id" (h "id" (by decide)),
    getField_congr decodeString "url" (h "url" (by decide)),
    getField_congr decodeString "creator" (h "creator" (by decide)),
    getField_congr decodeUser "creator_detail" (h "creator_detail" (by decide)),
    getField_congr decodeString "summary" (h "summary" (by decide)),
    getField_congr decodeString "status" (h "status" (by decide)),
    getField_congr decodeI64 "estimated_time" (h "estimated_time" (by decide)),
    getField_congr decodeString "target_milestone" (h "target_milestone" (by decide))]

/-- Reading fields bundle 2 only consults the named keys of `Bug`. -/
theorem decodeBugPart2_congr {kvs1 kvs2 : List (String × Json)}
    (h : ∀ key, key ∈ bugFieldNames →
      List.lookup key kvs1 = List.lookup key kvs2) :
    decodeBugPart2 kvs1 = decodeBugPart2 kvs2 := by
  simp only [decodeBugPart2,
    getField_congr (decodeList decodeString) "cc" (h "cc" (by decide)),
    getField_congr (decodeList decodeUser) "cc_detail" (h "cc_detail" (by decide)),
    getField_congr decodeBool "is_open" (h "is_open" (by decide)),
    getField_congr decodeBool "is_creator_accessible" (h "is_creator_accessible" (by decide)),
    getField_congr decodeString "docs_contact" (h "docs_contact" (by decide)),
    getOptField_congr decodeUser "docs_contact_detail" (h "docs_contact_detail" (by decide)),
    getField_congr decodeString "assigned_to" (h "assigned_to" (by decide)),
    getField_congr decodeUser "assigned_to_detail" (h "assigned_to_detail" (by decide)),
    getField_congr decodeString "resolution" (h "resolution" (by decide)),
    getField_congr decodeString "severity" (h "severity" (by decide))]

/-- Reading fields bundle 3 only consults the named keys of `Bug`. -/
theorem decodeBugPart3_congr {kvs1 kvs2 : List (String × Json)}
    (h : ∀ key, key ∈ bugFieldNames →
      List.lookup key kvs1 = List.lookup key kvs2) :
    decodeBugPart3 kvs1 = decodeBugPart3 kvs2 := by
  simp only [decodeBugPart3,
    getField_congr decodeString "product" (h "product" (by decide)),
    getField_congr decodeString "platform" (h "platform" (by decide)),
    getField_congr decodeString "last_change_time" (h "last_change_time" (by decide)),
    getField_congr decodeI64 "remaining_time" (h "remaining_time" (by decide)),
    getField_congr decodeString "priority" (h "priority" (by decide)),
    getField_congr decodeString "whiteboard" (h "whiteboard" (by decide)),
    getField_congr decodeString "creation_time" (h "creation_time" (by decide)),
    getField_congr decodeBool "is_confirmed" (h "is_confirmed" (by decide)),
    getField_congr decodeString "qa_contact" (h "qa_contact" (by decide)),
    getOptField_congr decodeUser "qa_contact_detail" (h "qa_contact_detail" (by decide))]

/-- Reading fields bundle 4 only consults the named keys of `Bug`. -/
theorem decodeBugPart4_congr {kvs1 kvs2 : List (String × Json)}
    (h : ∀ key, key ∈ bugFieldNames →
      List.lookup key kvs1 = List.lookup key kvs2) :
    decodeBugPart4 kvs1 = decodeBugPart4 kvs2 := by
  simp only [decodeBugPart4,
    getOptField_congr decodeI32 "dupe_of" (h "dupe_of" (by decide)),
    getField_congr (decodeList decodeString) "target_release" (h "target_release" (by decide)),
    getField_congr decodeI64 "actual_time" (h "actual_time" (by decide)),
    getField_congr (decodeList decodeString) "component" (h "component" (by decide)),
    getField_congr decodeBool "is_cc_accessible" (h "is_cc_accessible" (by decide)),
    getField_congr (decodeList decodeString) "version" (h "version" (by decide)),
    getField_congr (decodeList decodeString) "keywords" (h "keywords" (by decide)),
    getField_congr (decodeList decodeI32) "depends_on" (h "depends_on" (by decide)),
    getField_congr (decodeList decodeI32) "blocks" (h "blocks" (by decide)),
    getField_congr (decodeList decodeString) "see_also" (h "see_also" (by decide))]

/-- Reading fields bundle 5 only consults the named keys of `Bug`. -/
theorem decodeBugPart5_congr {kvs1 kvs2 : List (String × Json)}
    (h : ∀ key, key ∈ bugFieldNames →
      List.lookup key kvs1 = List.lookup key kvs2) :
    decodeBugPart5 kvs1 = decodeBugPart5 kvs2 := by
  simp only [decodeBugPart5,
    getField_congr (decodeList decodeString) "groups" (h "groups" (by decide)),
    getOptField_congr decodeString "deadline" (h "deadline" (by decide)),
    getOptField_congr decodeString "update_token" (h "update_token" (by decide)),
    getOptField_congr decodeI64 "work_time" (h "work_time" (by decide)),
    getOptField_congr (decodeList decodeFlag) "flags" (h "flags" (by decide)),
    getOptField_congr (decodeList decodeString) "tags" (h "tags" (by decide)),
    getOptField_congr (decodeList decodeString) "dependent_products" (h "dependent_products" (by decide))]

/-- Decoding the named fields of `Bug` only consults the named keys. -/
theorem decodeBugCore_congr {kvs1 kvs2 : List (String × Json)}
    (h : ∀ key, key ∈ bugFieldNames →
      List.lookup key kvs1 = List.lookup key kvs2) :
    decodeBugCore kvs1 = decodeBugCore kvs2 := by
  simp only [decodeBugCore, decodeBugPart1_congr h, decodeBugPart2_congr h,
    decodeBugPart3_congr h, decodeBugPart4_congr h, decodeBugPart5_congr h]

/-- Invert a successful decode of the named fields of `Bug`. -/
theorem decodeBugCore_some {kvs : List (String × Json)} {c : Bug}
    (h : decodeBugCore kvs = some c) :
    ∃ p1 p2 p3 p4 p5,
      decodeBugPart1 kvs = some p1 ∧ decodeBugPart2 kvs = some p2
      ∧ decodeBugPart3 kvs = some p3 ∧ decodeBugPart4 kvs = some p4
      ∧ decodeBugPart5 kvs = some p5 ∧ c = assembleBug p1 p2 p3 p4 p5 := by
  simp only [decodeBugCore, Option.bind_eq_bind, Option.bind_eq_some,
    Option.pure_def, Option.some.injEq] at h
  obtain ⟨p1, e1, p2, e2, p3, e3, p4, e4, p5, e5, heq⟩ := h
  exact ⟨p1, p2, p3, p4, p5, e1, e2, e3, e4, e5, heq.symm⟩

/-- Appending one unknown key to a bug object leaves the named fields
unchanged and appends the pair to the flattened `extra` map. -/
theorem decodeBug_snoc (kvs : List (String × Json)) (k : String) (v : Json)
    (hk : ¬ k ∈ bugFieldNames) :
    decodeBug (Json.obj (kvs ++ [(k, v)]))
      = (decodeBugCore kvs).map
          (fun c => { c with extra := extraOf bugFieldNames kvs ++ [(k, v)] }) := by
  have hlook : ∀ key, key ∈ bugFieldNames →
      List.lookup key (kvs ++ [(k, v)]) = List.lookup key kvs :=
    fun key hm => lookup_snoc_ne key k v kvs (fun he => hk (he ▸ hm))
  simp only [decodeBug, decodeBugCore_congr hlook,
    extraOf_snoc bugFieldNames k v kvs hk]

/-
Claim theorems.
-/

/-- C1 (counterexample): a session built by the constructor has field
list `["_default"]`, which is non-empty, so the path submitted for
`get_bug("123")` is not the bare `rest/bug?id=123` the specification's
example demands. -/
theorem default_session_path_ne_bare :
    ¬ ((BzInstance.at_host "https://bugzilla.example.com").request_path ["123"]
        = "rest/bug?id=123") := by
  decide

/-- C1 (amended): with the constructor's default field list
`["_default"]` the single-bug path carries the `include_fields`
fragment, `rest/bug?id=123&include_fields=_default`; the claim's second
example (fields `["_default","flags"]`, `Limit(10)`, ids `["1","2"]`)
is exactly as stated. -/
theorem session_request_path_examples :
    (BzInstance.at_host "https://bugzilla.example.com").request_path ["123"]
        = "rest/bug?id=123&include_fields=_default"
    ∧ (((BzInstance.at_host "https://bugzilla.example.com").include_fields
          ["_default", "flags"]).paginate (Pagination.Limit 10)).request_path
          ["1", "2"]
        = "rest/bug?id=1,2&include_fields=_default,flags&limit=10" :=
  ⟨rfl, rfl⟩

/-- C2: for every non-empty id list and every session configuration, the
query path is `rest/bug?id=` followed by the ids joined with commas in
order, then the `include_fields` fragment exactly when the field list is
non-empty, then the pagination fragment exactly when pagination is not
`Default`, in that order and with no other fragments. -/
theorem request_path_structure (s : BzInstance) (ids : List String)
    (hne : ids ≠ []) :
    s.request_path ids
      = "rest/bug?id=" ++ String.intercalate "," ids
        ++ (if s.included_fields = [] then ""
            else "&include_fields="
              ++ String.intercalate "," s.included_fields)
        ++ (match s.pagination with
            | Pagination.Default => ""
            | Pagination.Limit n => "&limit=" ++ toString n
            | Pagination.Unlimited => "&limit=0") := by
  cases hf : s.included_fields <;> cases hp : s.pagination <;>
    simp [BzInstance.request_path, Request.get_path,
      BzInstance.fields_as_query, Pagination.as_query, hf, hp]

/-- C2 (witness): the structure theorem evaluated on the default session
and ids `["7"]`. -/
theorem request_path_structure_witness :
    (BzInstance.at_host "h").request_path ["7"]
      = "rest/bug?id=" ++ String.intercalate "," ["7"]
        ++ (if (BzInstance.at_host "h").included_fields = [] then ""
            else "&include_fields="
              ++ String.intercalate "," (BzInstance.at_host "h").included_fields)
        ++ (match (BzInstance.at_host "h").pagination with
            | Pagination.Default => ""
            | Pagination.Limit n => "&limit=" ++ toString n
            | Pagination.Unlimited => "&limit=0") :=
  request_path_structure (BzInstance.at_host "h") ["7"] (by decide)

/-- C5: `include_fields` replaces the requested field set entirely;
afterwards an empty list produces no `include_fields` fragment and a
non-empty list produces `&include_fields=` followed by the fields joined
with commas in order. -/
theorem include_fields_overrides (s : BzInstance) (l : List String)
    (hne : l ≠ []) :
    (s.include_fields l).included_fields = l
    ∧ (s.include_fields []).fields_as_query = ""
    ∧ (s.include_fields l).fields_as_query
        = "&include_fields=" ++ String.intercalate "," l := by
  refine ⟨rfl, rfl, ?_⟩
  cases l with
  | nil => exact absurd rfl hne
  | cons a t => rfl

/-- C5 (witness): the override theorem evaluated on the default session
and field list `["_default", "flags"]`. -/
theorem include_fields_overrides_witness :
    ((BzInstance.at_host "h").include_fields ["_default", "flags"]).included_fields
        = ["_default", "flags"]
    ∧ ((BzInstance.at_host "h").include_fields []).fields_as_query = ""
    ∧ ((BzInstance.at_host "h").include_fields
        ["_default", "flags"]).fields_as_query
        = "&include_fields=" ++ String.intercalate "," ["_default", "flags"] :=
  include_fields_overrides (BzInstance.at_host "h") ["_default", "flags"]
    (by decide)

/-- C6: the pagination fragment is determined exactly by the mode:
`Default` contributes no `limit` fragment, `Limit n` contributes the
`limit=n` parameter, `Unlimited` contributes `limit=0` (each non-empty
fragment is appended with its `&` separator). -/
theorem pagination_fragment (n : Nat) :
    Pagination.as_query Pagination.Default = ""
    ∧ Pagination.as_query (Pagination.Limit n) = "&limit=" ++ toString n
    ∧ Pagination.as_query Pagination.Unlimited = "&limit=0" :=
  ⟨rfl, rfl, rfl⟩

/-- C10: re-authenticating as `Anonymous` leaves the client (and hence
its headers) untouched while the `auth` field reports `Anonymous`; in
particular, after `ApiKey key` then `Anonymous`, the client still
carries `Authorization: Bearer key`. -/
theorem authenticate_anonymous_preserves_header (s : BzInstance)
    (key : String) :
    ((s.authenticate Auth.Anonymous).client = s.client
      ∧ (s.authenticate Auth.Anonymous).auth = Auth.Anonymous)
    ∧ (((s.authenticate (Auth.ApiKey key)).authenticate Auth.Anonymous).auth
          = Auth.Anonymous
        ∧ List.lookup "Authorization"
            ((s.authenticate (Auth.ApiKey key)).authenticate
              Auth.Anonymous).client.headers
          = some ("Bearer " ++ key)) := by
  refine ⟨⟨rfl, rfl⟩, rfl, ?_⟩
  show List.lookup "Authorization"
      (s.client.headers.filter (fun p => p.1 != "Authorization")
        ++ [("Authorization", "Bearer " ++ key)]) = some ("Bearer " ++ key)
  rw [lookup_append_left_none _ _ _ (lookup_filter_self_none _ _)]
  exact lookup_singleton_self _ _

/-- C3: `bug` is the head of the list `bugs` returns for the singleton
id list — when the parsed payload holds exactly one bug, that bug is
returned unchanged (`Except.ok b` for `bugs = [b]`); when it holds zero
bugs, the result is `Error.InvalidValue`, never a successful empty
value. -/
theorem bug_is_head_of_bugs (s : BzInstance) (net : Network) (id : String)
    (body : Json) (resp : Response)
    (hnet : net (s.request_path [id]) s.client.headers = Except.ok body)
    (hparse : decodeResponse body = some resp) :
    s.bugs net [id] = Except.ok resp.bugs
    ∧ s.bug net id
        = (match resp.bugs with
           | [] => Except.error Error.InvalidValue
           | b :: _ => Except.ok b) := by
  have hb : s.bugs net [id] = Except.ok resp.bugs := by
    simp only [BzInstance.bugs, RestClient.get, hnet, hparse]
  refine ⟨hb, ?_⟩
  simp only [BzInstance.bug, hb]

/-- C3 (witness): the head theorem evaluated on a network returning a
one-bug payload for id "5". -/
theorem bug_is_head_of_bugs_witness :
    (BzInstance.at_host "h").bugs (fun _ _ => Except.ok oneBugBody) ["5"]
        = Except.ok oneBugResponse.bugs
    ∧ (BzInstance.at_host "h").bug (fun _ _ => Except.ok oneBugBody) "5"
        = (match oneBugResponse.bugs with
           | [] => Except.error Error.InvalidValue
           | b :: _ => Except.ok b) :=
  bug_is_head_of_bugs (BzInstance.at_host "h") (fun _ _ => Except.ok oneBugBody)
    "5" oneBugBody oneBugResponse rfl rfl

/-- C4: whenever the response body parses, `bugs` returns the payload's
bug list as a success — also when that list is empty or shorter than the
list of requested ids; a partial or empty match is never an error. -/
theorem bugs_returns_response_list (s : BzInstance) (net : Network)
    (ids : List String) (body : Json) (resp : Response)
    (hnet : net (s.request_path ids) s.client.headers = Except.ok body)
    (hparse : decodeResponse body = some resp) :
    s.bugs net ids = Except.ok resp.bugs := by
  simp only [BzInstance.bugs, RestClient.get, hnet, hparse]

/-- C4 (witness): the success theorem evaluated with two requested ids
and a payload containing zero bugs. -/
theorem bugs_returns_response_list_witness :
    (BzInstance.at_host "h").bugs (fun _ _ => Except.ok emptyBody) ["1", "2"]
        = Except.ok emptyResponse.bugs :=
  bugs_returns_response_list (BzInstance.at_host "h")
    (fun _ _ => Except.ok emptyBody) ["1", "2"] emptyBody emptyResponse
    rfl rfl

/-- C8 (counterexample): a session with `ApiKey` authentication and
default options does not construct the legacy paths: the legacy
multi-bug path hard-codes `include_fields=_default,pool,flags` and the
legacy single-bug path has no `include_fields` fragment, while the
default session sends `include_fields=_default`. -/
theorem legacy_session_paths_differ :
    ((BzInstance.at_host "h").authenticate (Auth.ApiKey "k")).request_path ["1"]
        ≠ get_path_multi ["1"]
    ∧ ((BzInstance.at_host "h").authenticate (Auth.ApiKey "k")).request_path
        ["123"]
        ≠ get_path_single "123" := by
  constructor <;> decide

/-- C8 (amended): the legacy free functions and the session API share
the same GET-and-extract semantics and the same `Authorization: Bearer`
header, but fix different field selections; the session reproduces the
legacy `bugs` exactly when its field list is `["_default","pool","flags"]`
and the legacy `bug` exactly when its field list is empty. -/
theorem legacy_session_equivalence (host key : String) (ids : List String)
    (id : String) (net : Network) :
    (((BzInstance.at_host host).authenticate (Auth.ApiKey key)).include_fields
        ["_default", "pool", "flags"]).request_path ids = get_path_multi ids
    ∧ (((BzInstance.at_host host).authenticate (Auth.ApiKey key)).include_fields
        ["_default", "pool", "flags"]).bugs net ids = bugs host net ids key
    ∧ (((BzInstance.at_host host).authenticate (Auth.ApiKey key)).include_fields
        []).request_path [id] = get_path_single id
    ∧ (((BzInstance.at_host host).authenticate (Auth.ApiKey key)).include_fields
        []).bug net id = bug host net id key
    ∧ ((BzInstance.at_host host).authenticate (Auth.ApiKey key)).client.headers
        = [("Authorization", "Bearer " ++ key)] := by
  have hmulti : (((BzInstance.at_host host).authenticate
      (Auth.ApiKey key)).include_fields
        ["_default", "pool", "flags"]).request_path ids
      = get_path_multi ids := by
    show "rest/bug?id=" ++ String.intercalate "," ids
        ++ ("&include_fields=" ++ "_default,pool,flags") ++ "" = _
    simp [get_path_multi]
  have hsingle : (((BzInstance.at_host host).authenticate
      (Auth.ApiKey key)).include_fields []).request_path [id]
      = get_path_single id := by
    show "rest/bug?id=" ++ String.intercalate "," [id] ++ "" ++ "" = _
    rw [String.append_empty, String.append_empty]
    rfl
  have hclientM : (((BzInstance.at_host host).authenticate
      (Auth.ApiKey key)).include_fields
        ["_default", "pool", "flags"]).client
      = RestClient.set_header { headers := [] } "Authorization"
          ("Bearer " ++ key) := rfl
  have hclientS : (((BzInstance.at_host host).authenticate
      (Auth.ApiKey key)).include_fields []).client
      = RestClient.set_header { headers := [] } "Authorization"
          ("Bearer " ++ key) := rfl
  refine ⟨hmulti, ?_, hsingle, ?_, rfl⟩
  · simp only [BzInstance.bugs, bugs, hmulti, hclientM]
  · simp only [BzInstance.bug, BzInstance.bugs, bug, hsingle, hclientS]
    cases hres : (RestClient.set_header { headers := [] } "Authorization"
        ("Bearer " ++ key)).get net (get_path_single id) with
    | error e => rfl
    | ok r => rfl

/-- C7: bug deserialization tolerates unknown keys — adding a key that
matches no named field to a successfully parsed object leaves the parse
successful and records the pair in the `extra` map, retrievable by key —
and tolerates the absence of every optional field, leaving it `none`
instead of failing. -/
theorem decodeBug_tolerant (kvs : List (String × Json)) (b : Bug)
    (k : String) (v : Json)
    (hb : decodeBug (Json.obj kvs) = some b)
    (hk : ¬ k ∈ bugFieldNames)
    (hfresh : List.lookup k kvs = none) :
    (decodeBug (Json.obj (kvs ++ [(k, v)]))
        = some { b with extra := b.extra ++ [(k, v)] }
      ∧ List.lookup k (b.extra ++ [(k, v)]) = some v)
    ∧ ((List.lookup "flags" kvs = none → b.flags = none)
      ∧ (List.lookup "tags" kvs = none → b.tags = none)
      ∧ (List.lookup "dependent_products" kvs = none
          → b.dependent_products = none)
      ∧ (List.lookup "docs_contact_detail" kvs = none
          → b.docs_contact_detail = none)
      ∧ (List.lookup "qa_contact_detail" kvs = none
          → b.qa_contact_detail = none)
      ∧ (List.lookup "dupe_of" kvs = none → b.dupe_of = none)
      ∧ (List.lookup "deadline" kvs = none → b.deadline = none)
      ∧ (List.lookup "update_token" kvs = none → b.update_token = none)
      ∧ (List.lookup "work_time" kvs = none → b.work_time = none)) := by
  have hb' := hb
  simp only [decodeBug] at hb'
  rw [Option.map_eq_some'] at hb'
  obtain ⟨c, hc, hbc⟩ := hb'
  subst hbc
  obtain ⟨p1, p2, p3, p4, p5, hp1, hp2, hp3, hp4, hp5, hcp⟩ :=
    decodeBugCore_some hc
  subst hcp
  have opt_none : ∀ {α : Type} (dec : Json → Option α) (key : String)
      (x : Option α), getOptField dec key kvs = some x
      → List.lookup key kvs = none → x = none := by
    intro α dec key x hx hnone
    rw [getOptField_of_lookup_none dec key hnone] at hx
    exact (Option.some.inj hx).symm
  obtain ⟨_, hdl5, hut5, hwt5, hfl5, htg5, hdp5⟩ := decodeBugPart5_some hp5
  obtain ⟨_, _, _, _, _, hdoc2, _, _, _, _⟩ := decodeBugPart2_some hp2
  obtain ⟨_, _, _, _, _, _, _, _, _, hqa3⟩ := decodeBugPart3_some hp3
  obtain ⟨hdupe4, _, _, _, _, _, _, _, _, _⟩ := decodeBugPart4_some hp4
  refine ⟨⟨?_, ?_⟩, fun h => opt_none _ _ _ hfl5 h,
    fun h => opt_none _ _ _ htg5 h, fun h => opt_none _ _ _ hdp5 h,
    fun h => opt_none _ _ _ hdoc2 h, fun h => opt_none _ _ _ hqa3 h,
    fun h => opt_none _ _ _ hdupe4 h, fun h => opt_none _ _ _ hdl5 h,
    fun h => opt_none _ _ _ hut5 h, fun h => opt_none _ _ _ hwt5 h⟩
  · rw [decodeBug_snoc kvs k v hk, hc]
    rfl
  · show List.lookup k (extraOf bugFieldNames kvs ++ [(k, v)]) = some v
    rw [lookup_append_left_none _ _ _
      (lookup_extraOf_none bugFieldNames k kvs hfresh)]
    exact lookup_singleton_self _ _

/-- C7 (witness): the tolerance theorem evaluated on a concrete bug
object that carries every required field, no optional field, and is
extended with the unknown key `custom_field_1`. -/
theorem decodeBug_tolerant_witness :
    (decodeBug (Json.obj (mkBugKVs 1 [] [] ++ [("custom_field_1", Json.str "x")]))
        = some { mkBug 1 [] [] with
                 extra := (mkBug 1 [] []).extra
                   ++ [("custom_field_1", Json.str "x")] }
      ∧ List.lookup "custom_field_1"
          ((mkBug 1 [] []).extra ++ [("custom_field_1", Json.str "x")])
        = some (Json.str "x"))
    ∧ ((List.lookup "flags" (mkBugKVs 1 [] []) = none
          → (mkBug 1 [] []).flags = none)
      ∧ (List.lookup "tags" (mkBugKVs 1 [] []) = none
          → (mkBug 1 [] []).tags = none)
      ∧ (List.lookup "dependent_products" (mkBugKVs 1 [] []) = none
          → (mkBug 1 [] []).dependent_products = none)
      ∧ (List.lookup "docs_contact_detail" (mkBugKVs 1 [] []) = none
          → (mkBug 1 [] []).docs_contact_detail = none)
      ∧ (List.lookup "qa_contact_detail" (mkBugKVs 1 [] []) = none
          → (mkBug 1 [] []).qa_contact_detail = none)
      ∧ (List.lookup "dupe_of" (mkBugKVs 1 [] []) = none
          → (mkBug 1 [] []).dupe_of = none)
      ∧ (List.lookup "deadline" (mkBugKVs 1 [] []) = none
          → (mkBug 1 [] []).deadline = none)
      ∧ (List.lookup "update_token" (mkBugKVs 1 [] []) = none
          → (mkBug 1 [] []).update_token = none)
      ∧ (List.lookup "work_time" (mkBugKVs 1 [] []) = none
          → (mkBug 1 [] []).work_time = none)) :=
  decodeBug_tolerant (mkBugKVs 1 [] []) (mkBug 1 [] [])
    "custom_field_1" (Json.str "x") rfl (by decide) rfl

/-- C9 (counterexample): the parser enforces no invariant on `id`, `cc`
or `cc_detail`: `badResponseBody` parses successfully although its bugs
have non-positive duplicated ids and a `cc` list longer than
`cc_detail`. -/
theorem parsed_bugs_may_violate_invariant :
    decodeResponse badResponseBody = some badResponse
    ∧ ¬ responseInvariant badResponse := by
  constructor
  · rfl
  · show ¬ ((badResponse.bugs.map Bug.id).Nodup
      ∧ ∀ b ∈ badResponse.bugs, 0 < b.id
        ∧ b.cc.length = b.cc_detail.length)
    decide

/-- C9 (amended): a successful parse copies `id`, `cc` and `cc_detail`
verbatim from the payload; positivity, uniqueness and the parallel-array
property are not checked by the client and hold only when the server's
payload satisfies them. -/
theorem decodeBug_copies_id_cc (kvs : List (String × Json)) (b : Bug)
    (hb : decodeBug (Json.obj kvs) = some b) :
    getField decodeI32 "id" kvs = some b.id
    ∧ getField (decodeList decodeString) "cc" kvs = some b.cc
    ∧ getField (decodeList decodeUser) "cc_detail" kvs = some b.cc_detail := by
  simp only [decodeBug] at hb
  rw [Option.map_eq_some'] at hb
  obtain ⟨c, hc, hbc⟩ := hb
  subst hbc
  obtain ⟨p1, p2, p3, p4, p5, hp1, hp2, hp3, hp4, hp5, hcp⟩ :=
    decodeBugCore_some hc
  subst hcp
  obtain ⟨_, _, hid, _, _, _, _, _, _, _⟩ := decodeBugPart1_some hp1
  obtain ⟨hcc, hccd, _, _, _, _, _, _, _, _⟩ := decodeBugPart2_some hp2
  exact ⟨hid, hcc, hccd⟩

/-- C9 (witness): the copy theorem evaluated on a concrete bug object
with id 5, one `cc` entry and one `cc_detail` entry. -/
theorem decodeBug_copies_id_cc_witness :
    getField decodeI32 "id" (mkBugKVs 5 ["x@example.com"] ["carol"])
        = some (mkBug 5 ["x@example.com"] ["carol"]).id
    ∧ getField (decodeList decodeString) "cc"
        (mkBugKVs 5 ["x@example.com"] ["carol"])
        = some (mkBug 5 ["x@example.com"] ["carol"]).cc
    ∧ getField (decodeList decodeUser) "cc_detail"
        (mkBugKVs 5 ["x@example.com"] ["carol"])
        = some (mkBug 5 ["x@example.com"] ["carol"]).cc_detail :=
  decodeBug_copies_id_cc (mkBugKVs 5 ["x@example.com"] ["carol"])
    (mkBug 5 ["x@example.com"] ["carol"]) rfl

end BugzillaQuery
